import Mathlib

set_option maxRecDepth 8192

/-!
Verification of the vanna_last repository core against its specification.

Shallow embedding conventions:
- Python dicts of JSON-like data are `PyJson` / association lists.
- Python truthiness of optional strings is modelled explicitly (`None` and
  `""` are falsy).
- External collaborators (the LLM, the live database, the HTTP transport,
  the JWT decoder) are parameters of the embedded functions; the standard
  library functions the code calls (`hashlib.md5`, UTF-8 `str.encode`,
  urllib3's `Retry`) are embedded faithfully from their specifications.
-/

/-- A JSON value as produced by Python's `json` module / `response.json()`. -/
inductive PyJson where
  | obj (fields : List (String × PyJson))
  | arr (elems : List PyJson)
  | str (s : String)
  | num (n : Int)
  | bool (b : Bool)
  | null
deriving Repr

/-- Dictionary lookup, Python's `d.get(k)` on a JSON object. -/
def jlookup (k : String) : List (String × PyJson) → Option PyJson
  | [] => none
  | (k', v) :: rest => if k' = k then some v else jlookup k rest

/-- Python truthiness of an optional string: `None` and `""` are falsy. -/
def pyTruthyStr : Option String → Bool
  | none => false
  | some s => !s.isEmpty

/-- Keep an optional string only if it is truthy (helper for `x or y` chains). -/
def truthyOpt (o : Option String) : Option String :=
  match o with
  | none => none
  | some s => if s.isEmpty then none else some s

/-- Python's `str.upper()` (character-wise ASCII case mapping, which agrees
with Python on the ASCII keywords and method names the code upper-cases). -/
def pyUpper (s : String) : String :=
  ⟨s.data.map Char.toUpper⟩

/-- Python's `str.lower()` (character-wise ASCII case mapping). -/
def pyLower (s : String) : String :=
  ⟨s.data.map Char.toLower⟩

/-- ASCII whitespace, the characters `str.strip()` removes from the texts the
code strips (LLM replies and questions). -/
def isSpaceChar (c : Char) : Bool :=
  c = ' ' || c = '\t' || c = '\n' || c = '\r'

/-- Python's `str.strip()`. -/
def pyStrip (s : String) : String :=
  ⟨((s.data.dropWhile isSpaceChar).reverse.dropWhile isSpaceChar).reverse⟩

/-- Python's substring test `needle in hay` on lists of characters. -/
def listSubstr (n : List Char) : List Char → Bool
  | [] => n.isEmpty
  | c :: t => n.isPrefixOf (c :: t) || listSubstr n t

/-- Python's `needle in hay` for strings. -/
def pyInStr (needle hay : String) : Bool :=
  listSubstr needle.data hay.data

namespace MD5

/-! Embedding of `hashlib.md5` over the UTF-8 bytes of a string, as used by
`get_cached_result` / `cache_result` (`hashlib.md5(question.encode()).hexdigest()`).
This follows RFC 1321; all words are `Nat` reduced modulo `2 ^ 32`. -/

/-- Truncate to a 32-bit word. -/
def u32 (n : Nat) : Nat := n % 4294967296

/-- 32-bit left rotation. -/
def rotl32 (x c : Nat) : Nat :=
  u32 (x <<< c) ||| (x >>> (32 - c))

/-- 32-bit bitwise complement. -/
def not32 (x : Nat) : Nat := Nat.xor x 4294967295

/-- UTF-8 encoding of one character (Python's `str.encode()` default). -/
def utf8Char (c : Char) : List Nat :=
  let n := c.toNat
  if n < 128 then [n]
  else if n < 2048 then [192 ||| (n >>> 6), 128 ||| (n &&& 63)]
  else if n < 65536 then
    [224 ||| (n >>> 12), 128 ||| ((n >>> 6) &&& 63), 128 ||| (n &&& 63)]
  else
    [240 ||| (n >>> 18), 128 ||| ((n >>> 12) &&& 63),
     128 ||| ((n >>> 6) &&& 63), 128 ||| (n &&& 63)]

/-- UTF-8 bytes of a string, `question.encode()`. -/
def strBytes (s : String) : List Nat :=
  (s.data.map utf8Char).flatten

/-- The 64 per-round sine-derived constants of MD5. -/
def kTable : List Nat := [
  3614090360, 3905402710, 606105819, 3250441966, 4118548399, 1200080426, 2821735955, 4249261313,
  1770035416, 2336552879, 4294925233, 2304563134, 1804603682, 4254626195, 2792965006, 1236535329,
  4129170786, 3225465664, 643717713, 3921069994, 3593408605, 38016083, 3634488961, 3889429448,
  568446438, 3275163606, 4107603335, 1163531501, 2850285829, 4243563512, 1735328473, 2368359562,
  4294588738, 2272392833, 1839030562, 4259657740, 2763975236, 1272893353, 4139469664, 3200236656,
  681279174, 3936430074, 3572445317, 76029189, 3654602809, 3873151461, 530742520, 3299628645,
  4096336452, 1126891415, 2878612391, 4237533241, 1700485571, 2399980690, 4293915773, 2240044497,
  1873313359, 4264355552, 2734768916, 1309151649, 4149444226, 3174756917, 718787259, 3951481745
]

/-- The 64 per-round left-rotation amounts of MD5. -/
def sTable : List Nat := [
  7, 12, 17, 22, 7, 12, 17, 22, 7, 12, 17, 22, 7, 12, 17, 22,
  5, 9, 14, 20, 5, 9, 14, 20, 5, 9, 14, 20, 5, 9, 14, 20,
  4, 11, 16, 23, 4, 11, 16, 23, 4, 11, 16, 23, 4, 11, 16, 23,
  6, 10, 15, 21, 6, 10, 15, 21, 6, 10, 15, 21, 6, 10, 15, 21
]

/-- Message padding: append `0x80`, zero-pad to 56 mod 64, then the original
bit length as a 64-bit little-endian quantity. -/
def pad (msg : List Nat) : List Nat :=
  let bitLen := 8 * msg.length
  let zeros := (119 - msg.length % 64) % 64
  msg ++ [128] ++ List.replicate zeros 0 ++
    ((List.range 8).map fun i => (bitLen >>> (8 * i)) % 256)

/-- Split a byte list into 64-byte blocks (the padded length is a multiple
of 64). -/
def chunks64 (l : List Nat) : List (List Nat) :=
  (List.range (l.length / 64)).map fun i => (l.drop (64 * i)).take 64

/-- Little-endian 32-bit word `i` of a 64-byte block. -/
def word (block : List Nat) (i : Nat) : Nat :=
  block.getD (4 * i) 0 + 256 * block.getD (4 * i + 1) 0 +
    65536 * block.getD (4 * i + 2) 0 + 16777216 * block.getD (4 * i + 3) 0

/-- One of the 64 MD5 rounds. -/
def round (block : List Nat) (st : Nat × Nat × Nat × Nat) (i : Nat) :
    Nat × Nat × Nat × Nat :=
  let (a, b, c, d) := st
  let fg : Nat × Nat :=
    if i < 16 then ((b &&& c) ||| (not32 b &&& d), i)
    else if i < 32 then ((d &&& b) ||| (not32 d &&& c), (5 * i + 1) % 16)
    else if i < 48 then (Nat.xor (Nat.xor b c) d, (3 * i + 5) % 16)
    else (Nat.xor c (b ||| not32 d), (7 * i) % 16)
  let f := u32 (fg.1 + a + kTable.getD i 0 + word block fg.2)
  (d, u32 (b + rotl32 f (sTable.getD i 0)), b, c)

/-- Process one 64-byte block, updating the running state. -/
def processBlock (st : Nat × Nat × Nat × Nat) (block : List Nat) :
    Nat × Nat × Nat × Nat :=
  let (a0, b0, c0, d0) := st
  let (a, b, c, d) := (List.range 64).foldl (round block) (a0, b0, c0, d0)
  (u32 (a0 + a), u32 (b0 + b), u32 (c0 + c), u32 (d0 + d))

/-- The 16 digest bytes (each state word serialized little-endian). -/
def digestBytes (msg : List Nat) : List Nat :=
  let (a, b, c, d) :=
    (chunks64 (pad msg)).foldl processBlock (1732584193, 4023233417, 2562383102, 271733878)
  ([a, b, c, d].map fun w => (List.range 4).map fun i => (w >>> (8 * i)) % 256).flatten

/-- One lowercase hex digit. -/
def hexDigit (n : Nat) : Char :=
  if n < 10 then Char.ofNat (48 + n) else Char.ofNat (87 + n)

/-- Lowercase hex string of a byte list, `hexdigest()`. -/
def toHex (bytes : List Nat) : String :=
  ⟨(bytes.map fun b => [hexDigit (b >>> 4), hexDigit (b &&& 15)]).flatten⟩

/-- `hashlib.md5(s.encode()).hexdigest()`. -/
def md5Hex (s : String) : String :=
  toHex (digestBytes (strBytes s))

end MD5

namespace MVP

/-! Embedding of `MVP/app_mvp.py`: the safety-gated execute/cache pipeline. -/

/-- `result.keys()` / `fetchall()` packaged as pandas would: column names plus
row records (each row a record of column/value pairs, as `df.to_dict('records')`
produces). -/
structure DataFrame where
  columns : List String
  records : List (List (String × PyJson))

/-- The errors `execute_query` can raise. -/
inductive ExecError where
  | dbNotConnected
  | dangerousOperation
  | executionError (msg : String)

/-- `dangerous_keywords = ['DROP', 'DELETE', 'TRUNCATE', 'ALTER', 'GRANT']` -/
def dangerous_keywords : List String :=
  ["DROP", "DELETE", "TRUNCATE", "ALTER", "GRANT"]

/-- The denylist test of `execute_query`:
`any(keyword in sql_query.upper() for keyword in dangerous_keywords)`. -/
def dangerousCheck (sql_query : String) : Bool :=
  dangerous_keywords.any (fun keyword => pyInStr keyword (pyUpper sql_query))

/-- `execute_query(sql_query)` from `app_mvp.py`.  The live database is the
parameter `runDb` (what `conn.execute` returns or raises); `engineConnected`
models whether the module-level `engine` is non-`None`.  The second component
records whether the runner (`engine.connect` / `conn.execute`) was invoked. -/
def execute_query (engineConnected : Bool)
    (runDb : String → Except String DataFrame) (sql_query : String) :
    Except ExecError DataFrame × Bool :=
  if !engineConnected then (.error .dbNotConnected, false)
  else if dangerousCheck sql_query then (.error .dangerousOperation, false)
  else
    match runDb sql_query with
    | .ok df => (.ok df, true)
    | .error e => (.error (.executionError e), true)

end MVP

namespace MVP

/-- A cached pipeline result, the dict
`{'sql': ..., 'data': df.to_dict('records'), 'rows': len(df), 'columns': ...}`.
As a four-key dict it is always truthy, so `if cached:` in `main` accepts any
decoded value.  The Redis string round trip
(`json.dumps` … `json.loads`) is modelled as the identity on this structure. -/
structure CachedResult where
  sql : String
  data : List (List (String × PyJson))
  rows : Nat
  columns : List String

/-- The Redis store: `none` models `redis_client is None` (Redis unavailable);
otherwise an association list from keys to stored results, newest first. -/
def Store := Option (List (String × CachedResult))

/-- Association-list lookup used by the modelled Redis `get`. -/
def storeLookup (k : String) : List (String × CachedResult) → Option CachedResult
  | [] => none
  | (k', v) :: rest => if k' = k then some v else storeLookup k rest

/-- The cache key both `get_cached_result` and `cache_result` compute:
`f"query:{hashlib.md5(question.encode()).hexdigest()}"`. -/
def cacheKey (question : String) : String :=
  "query:" ++ MD5.md5Hex question

/-- `get_cached_result(question)`. -/
def get_cached_result (store : Store) (question : String) : Option CachedResult :=
  match store with
  | none => none
  | some kv => storeLookup (cacheKey question) kv

/-- `cache_result(question, result)`; Redis `setex` overwrites, modelled by
consing the new binding (lookup returns the newest). -/
def cache_result (store : Store) (question : String) (result : CachedResult) : Store :=
  match store with
  | none => none
  | some kv => some ((cacheKey question, result) :: kv)

/-- Markdown code-fence cleanup in `generate_sql`. -/
def stripFences (s : String) : String :=
  let s := pyStrip s
  let s := if "\x60\x60\x60sql".data.isPrefixOf s.data then (⟨s.data.drop 6⟩ : String) else s
  let s := if "\x60\x60\x60".data.isPrefixOf s.data then (⟨s.data.drop 3⟩ : String) else s
  let s := if "\x60\x60\x60".data.isSuffixOf s.data then (⟨s.data.take (s.data.length - 3)⟩ : String) else s
  pyStrip s

/-- `generate_sql(question)`: the LLM collaborator is the parameter `llm`
(which may raise); its raw reply is fence-stripped.  The prompt construction
and schema introspection do not affect the returned SQL text's shape. -/
def generate_sql (llm : String → Except String String) (question : String) :
    Except String String :=
  match llm question with
  | .error e => .error e
  | .ok raw => .ok (stripFences raw)

/-- The observable outcome of one `main(message)` turn. -/
inductive MainOutcome where
  | answered (result : CachedResult) (fromCache : Bool)
  | errored (msg : String)

/-- Trace of one `main` turn: outcome, whether `generate_sql` was invoked,
whether `execute_query` reached the runner or gate at all, and the store
after the turn. -/
structure MainTrace where
  outcome : MainOutcome
  genCalled : Bool
  execCalled : Bool
  store : Store

/-- Message text of an `ExecError` as `str(e)` would render it in `main`. -/
def execErrMsg : ExecError → String
  | .dbNotConnected => "Database not connected"
  | .dangerousOperation => "⛔ Dangerous SQL operation detected!"
  | .executionError m => m

/-- One turn of `main(message)` from `app_mvp.py`: cache probe, then
generate → execute → package → cache, with all exceptions caught into an
error reply.  `execCalled` records that `execute_query` was entered (the
claims only need that no call happens on a cache hit). -/
def mainTurn (llm : String → Except String String) (engineConnected : Bool)
    (runDb : String → Except String DataFrame) (store : Store)
    (question : String) : MainTrace :=
  match get_cached_result store question with
  | some r => ⟨.answered r true, false, false, store⟩
  | none =>
    match generate_sql llm question with
    | .error e => ⟨.errored e, true, false, store⟩
    | .ok sql_query =>
      match execute_query engineConnected runDb sql_query with
      | (.error e, _) => ⟨.errored (execErrMsg e), true, true, store⟩
      | (.ok df, _) =>
        let result : CachedResult :=
          ⟨sql_query, df.records, df.records.length, df.columns⟩
        ⟨.answered result false, true, true, cache_result store question result⟩

end MVP

namespace Factory

/-! Embedding of `vanna_v2/factory.py`: descriptor builders and the DB runner
factory.  The environment is an association list of variable names to values;
`os.getenv` returns `none` for unset variables. -/

/-- An environment-style configuration source. -/
def Env := List (String × String)

/-- `os.getenv(name)`. -/
def getenv (env : Env) (name : String) : Option String :=
  match env with
  | [] => none
  | (k, v) :: rest => if k = name then some v else getenv rest name

/-- `os.getenv(name)` filtered through Python truthiness (`if not value`). -/
def getenvTruthy (env : Env) (name : String) : Option String :=
  truthyOpt (getenv env name)

/-- `_validate_env(var_name)`: raises `ValueError` when the variable is unset
or empty. -/
def validate_env (env : Env) (var_name : String) : Except String String :=
  match getenvTruthy env var_name with
  | some value => .ok value
  | none => .error ("❌ ERROR: Missing required environment variable: " ++ var_name)

/-- The error message of `build_oracle_dsn` when neither a service name nor a
SID is configured. -/
def oracleMissingMsg : String :=
  "❌ ERROR: For Oracle, you must specify either ORACLE_SERVICE_NAME or ORACLE_SID."

/-- `build_oracle_dsn()`. -/
def build_oracle_dsn (env : Env) : Except String String := do
  let host ← validate_env env "ORACLE_HOST"
  let port ← validate_env env "ORACLE_PORT"
  match getenvTruthy env "ORACLE_SERVICE_NAME" with
  | some service => .ok (host ++ ":" ++ port ++ "/" ++ service)
  | none =>
    match getenvTruthy env "ORACLE_SID" with
    | some sid => .ok (host ++ ":" ++ port ++ ":" ++ sid)
    | none => .error oracleMissingMsg

/-- `build_postgres_url()`. -/
def build_postgres_url (env : Env) : Except String String := do
  let user ← validate_env env "POSTGRES_USER"
  let password ← validate_env env "POSTGRES_PASSWORD"
  let host ← validate_env env "POSTGRES_HOST"
  let port ← validate_env env "POSTGRES_PORT"
  let db ← validate_env env "POSTGRES_DB"
  .ok ("postgresql://" ++ user ++ ":" ++ password ++ "@" ++ host ++ ":" ++ port ++ "/" ++ db)

/-- `build_mssql_url()`; the driver default is applied only when the variable
is unset (`os.getenv` two-argument form), and spaces are URL-encoded as `+`. -/
def build_mssql_url (env : Env) : Except String String := do
  let user ← validate_env env "MSSQL_USER"
  let password ← validate_env env "MSSQL_PASSWORD"
  let host ← validate_env env "MSSQL_HOST"
  let port ← validate_env env "MSSQL_PORT"
  let db ← validate_env env "MSSQL_DB"
  let driver := (getenv env "MSSQL_DRIVER").getD "ODBC Driver 18 for SQL Server"
  .ok ("mssql+pyodbc://" ++ user ++ ":" ++ password ++ "@" ++ host ++ ":" ++ port ++ "/" ++ db
    ++ "?driver=" ++ (⟨driver.data.map fun c => if c = ' ' then '+' else c⟩ : String))

/-- Errors `get_db_runner` can raise: `ValueError` from configuration
validation, or `UnsupportedDatabaseError` for an unknown engine kind. -/
inductive FactoryError where
  | valueError (msg : String)
  | unsupportedDatabase (msg : String)

/-- The runner variants the factory can return. -/
inductive Runner where
  | sqlite (database_path : String)
  | oracle (user password dsn : String)
  | postgres (url : String)
  | mssql (url : String)

/-- The engine kinds accepted by `get_db_runner`. -/
def validKinds : List String := ["sqlite", "oracle", "postgres", "postgresql", "mssql"]

/-- The `UnsupportedDatabaseError` message for an unknown engine kind. -/
def unsupportedMsg (db_type : String) : String :=
  "❌ Unsupported DB_TYPE: " ++ db_type ++
    "\n   Valid options: sqlite, oracle, postgres, postgresql, mssql"

/-- `get_db_runner()`: dispatch on `DB_TYPE` (default `"sqlite"`, lowercased). -/
def get_db_runner (env : Env) : Except FactoryError Runner :=
  let db_type := pyLower ((getenv env "DB_TYPE").getD "sqlite")
  if db_type = "sqlite" then
    let sqlite_path :=
      ((truthyOpt (getenv env "SQLITE_DB_PATH")).orElse fun _ =>
        truthyOpt (getenv env "VANNA_DATABASE_PATH")).getD "vanna_db.db"
    .ok (.sqlite sqlite_path)
  else if db_type = "oracle" then
    match validate_env env "ORACLE_USER" with
    | .error e => .error (.valueError e)
    | .ok user =>
      match validate_env env "ORACLE_PASSWORD" with
      | .error e => .error (.valueError e)
      | .ok password =>
        match build_oracle_dsn env with
        | .error e => .error (.valueError e)
        | .ok dsn => .ok (.oracle user password dsn)
  else if db_type = "postgres" ∨ db_type = "postgresql" then
    match build_postgres_url env with
    | .error e => .error (.valueError e)
    | .ok url => .ok (.postgres url)
  else if db_type = "mssql" then
    match build_mssql_url env with
    | .error e => .error (.valueError e)
    | .ok url => .ok (.mssql url)
  else
    .error (.unsupportedDatabase (unsupportedMsg db_type))

end Factory

namespace Client

/-! Embedding of `ui_streamlit/client.py` (`VannaAPIClient`).  Time is an
integer timestamp (`datetime.utcnow()` / `fromtimestamp` values); the HTTP
transport outcome of one request is a `Transport` value; JWT decoding is a
parameter.  JWT `exp` claims are numeric per RFC 7519, so expiries are `Int`. -/

/-- The mutable authentication state of `VannaAPIClient`
(`access_token`, `token_expiry`, plus the constructor's `timeout`). -/
structure ClientState where
  access_token : Option String
  token_expiry : Option Int
  timeout : Nat

/-- An HTTP response as the client observes it: status code, body text,
the decoded JSON when the body parses (`response.json()`), and the message
of the `JSONDecodeError` when it does not. -/
structure HttpResponse where
  status : Nat
  text : String
  json : Option PyJson
  jsonErrMsg : String

/-- The outcome of one transport-level send attempt. -/
inductive Transport where
  | timeout
  | connectionError (msg : String)
  | requestException (msg : String)
  | response (r : HttpResponse)

/-- What `_make_request` hands back to its caller: the decoded success
payload, the uniform `error` dict, or an uncaught Python exception
(`AttributeError` from `.get` on a non-dict JSON body). -/
inductive ReqResult where
  | payload (j : PyJson)
  | errorDict (message : PyJson)
  | raisedAttributeError

/-- `logout()`: unconditionally clear token and expiry. -/
def logout (st : ClientState) : ClientState :=
  { st with access_token := none, token_expiry := none }

/-- `_get_headers()`: `Content-Type` always; `Authorization: Bearer <token>`
only when `self.access_token` is truthy (`if self.access_token:`). -/
def get_headers (st : ClientState) : List (String × String) :=
  let headers := [("Content-Type", "application/json")]
  match st.access_token with
  | some tok => if tok.isEmpty then headers else headers ++ [("Authorization", "Bearer " ++ tok)]
  | none => headers

/-- `is_token_valid()`: false when the token or the expiry is falsy, else
`utcnow() < expiry`. -/
def is_token_valid (now : Int) (st : ClientState) : Bool :=
  match st.access_token, st.token_expiry with
  | none, _ => false
  | some tok, e =>
    if tok.isEmpty then false
    else match e with
      | none => false
      | some expiry => decide (now < expiry)

/-- The methods `_make_request` dispatches on. -/
def supportedMethods : List String := ["GET", "POST", "PUT", "DELETE"]

/-- `_make_request(method, endpoint, data)`.  The endpoint and body do not
influence the normalization logic; the transport outcome is `t`.  Returns the
normalized result together with the updated client state. -/
def make_request (st : ClientState) (method : String) (t : Transport) :
    ReqResult × ClientState :=
  if ¬ (pyUpper method ∈ supportedMethods) then
    (.errorDict (.str ("Unsupported HTTP method: " ++ method)), st)
  else
    match t with
    | .timeout =>
      (.errorDict (.str ("Request timeout after " ++ toString st.timeout ++ " seconds")), st)
    | .connectionError m => (.errorDict (.str ("Connection error: " ++ m)), st)
    | .requestException m => (.errorDict (.str ("Request failed: " ++ m)), st)
    | .response r =>
      if r.status = 200 ∨ r.status = 201 then
        match r.json with
        | some j => (.payload j, st)
        | none => (.errorDict (.str ("Request failed: " ++ r.jsonErrMsg)), st)
      else if r.status = 401 then
        (.errorDict (.str "Unauthorized. Please log in again."), logout st)
      else if r.status = 403 then (.errorDict (.str "Access denied."), st)
      else if r.status = 404 then (.errorDict (.str "Endpoint not found."), st)
      else
        match r.json with
        | none =>
          (.errorDict (.str ("HTTP " ++ toString r.status ++ ": " ++ r.text)), st)
        | some (.obj fields) =>
          (.errorDict ((jlookup "detail" fields).getD (.str r.text)), st)
        | some _ => (.raisedAttributeError, st)

/-- Outcome of `jwt.decode(token, options={"verify_signature": False})`:
either a `DecodeError`/`InvalidTokenError`, or the claim set with its
optional numeric `exp` claim. -/
inductive JwtOutcome where
  | invalid
  | decoded (exp : Option Int)

/-- Result of a `login` call: its boolean return value, or an uncaught
exception (`.get` on a non-dict 200 body, or `jwt.decode` applied to a
non-string truthy `access_token` value). -/
inductive LoginResult where
  | returns (b : Bool)
  | raised

/-- `login(username, password)`.  `decode` is the JWT library; `t` is the
transport outcome of the POST to `/api/v1/auth/login`. -/
def login (st : ClientState) (decode : String → JwtOutcome) (t : Transport) :
    LoginResult × ClientState :=
  match t with
  | .timeout => (.returns false, st)
  | .connectionError _ => (.returns false, st)
  | .requestException _ => (.returns false, st)
  | .response r =>
    if r.status = 200 then
      match r.json with
      | none => (.returns false, st)
      | some (.obj fields) =>
        match jlookup "access_token" fields with
        | none => (.returns true, { st with access_token := none })
        | some .null => (.returns true, { st with access_token := none })
        | some (.str tok) =>
          let st := { st with access_token := some tok }
          if tok.isEmpty then (.returns true, st)
          else
            match decode tok with
            | .invalid => (.returns true, { st with token_expiry := none })
            | .decoded none => (.returns true, st)
            | .decoded (some e) => (.returns true, { st with token_expiry := some e })
        | some _ => (.raised, { st with access_token := none })
      | some _ => (.raised, st)
    else (.returns false, st)

/-- The local refusal message of every authentication-gated method. -/
def authRequiredMsg : String := "Authentication required. Please log in first."

/-- `validate_sql(sql)`: local auth gate, then `_make_request`.  The third
component records whether a network request was made. -/
def validate_sql (now : Int) (st : ClientState) (t : Transport) :
    ReqResult × ClientState × Bool :=
  if ¬ is_token_valid now st then (.errorDict (.str authRequiredMsg), st, false)
  else
    let (r, st') := make_request st "POST" t
    (r, st', true)

/-- `execute_sql(sql, question)`. -/
def execute_sql (now : Int) (st : ClientState) (t : Transport) :
    ReqResult × ClientState × Bool :=
  if ¬ is_token_valid now st then (.errorDict (.str authRequiredMsg), st, false)
  else
    let (r, st') := make_request st "POST" t
    (r, st', true)

/-- `get_query_history()`: auth gate, GET, then normalization of a bare list
payload into `{"queries": [...]}`. -/
def get_query_history (now : Int) (st : ClientState) (t : Transport) :
    ReqResult × ClientState × Bool :=
  if ¬ is_token_valid now st then (.errorDict (.str authRequiredMsg), st, false)
  else
    let (r, st') := make_request st "GET" t
    match r with
    | .payload (.arr xs) => (.payload (.obj [("queries", .arr xs)]), st', true)
    | other => (other, st', true)

/-- `submit_feedback(query_id, question, feedback, rating)`. -/
def submit_feedback (now : Int) (st : ClientState) (t : Transport) :
    ReqResult × ClientState × Bool :=
  if ¬ is_token_valid now st then (.errorDict (.str authRequiredMsg), st, false)
  else
    let (r, st') := make_request st "POST" t
    (r, st', true)

/-- `get_config()` (representative of the admin-scoped calls, which all share
the same local gate). -/
def get_config (now : Int) (st : ClientState) (t : Transport) :
    ReqResult × ClientState × Bool :=
  if ¬ is_token_valid now st then (.errorDict (.str authRequiredMsg), st, false)
  else
    let (r, st') := make_request st "GET" t
    (r, st', true)

end Client

namespace Retry

/-! Embedding of the retry behaviour induced by `_create_session`:
`Retry(total=3, backoff_factor=0.5, status_forcelist=[429, 500, 502, 503, 504],
allowed_methods=["GET", "POST", "PUT", "DELETE"])` mounted on the session.
The retry engine itself is urllib3 1.26 (`urllib3/util/retry.py` and the
`urlopen` retry loop), embedded from its source/specification: `total` counts
*retries* (exhaustion when the counter would drop below zero), the backoff
before the n-th retry is `0` for `n = 1` and
`min(120, backoff_factor * 2 ^ (n - 1))` seconds afterwards, connect errors
are retried for every method, read timeouts and forcelist statuses only for
allowed methods, and no `Retry-After` headers are present. -/

/-- The retry configuration built in `_create_session`.  Times are in
milliseconds so that the arithmetic is exact: `backoff_factor=0.5` seconds is
500 ms. -/
structure RetryPolicy where
  total : Nat
  backoff_factor_ms : Nat
  status_forcelist : List Nat
  allowed_methods : List String

/-- The exact policy `_create_session` installs. -/
def create_session_retry : RetryPolicy :=
  ⟨3, 500, [429, 500, 502, 503, 504], ["GET", "POST", "PUT", "DELETE"]⟩

/-- What one send attempt produces at the transport level. -/
inductive Outcome where
  | status (code : Nat)
  | connectError
  | readTimeout

/-- Result of the whole retry loop: a delivered response (with the number of
attempts made and the sleeps between them), a `MaxRetryError` after the retry
budget is spent, or a re-raised read error for a non-retryable method. -/
inductive SimOut where
  | response (status attempts : Nat) (delays : List Nat)
  | maxRetryError (attempts : Nat) (delays : List Nat)
  | raisedReadError (attempts : Nat) (delays : List Nat)
deriving DecidableEq

/-- `Retry.DEFAULT_BACKOFF_MAX` (120 seconds), in milliseconds. -/
def BACKOFF_MAX_MS : Nat := 120000

/-- `Retry.get_backoff_time` before the `retriesDone`-th retry, in
milliseconds. -/
def backoffTime (p : RetryPolicy) (retriesDone : Nat) : Nat :=
  if retriesDone ≤ 1 then 0
  else min BACKOFF_MAX_MS (p.backoff_factor_ms * 2 ^ (retriesDone - 1))

/-- `Retry._is_method_retryable`. -/
def methodRetryable (p : RetryPolicy) (method : String) : Bool :=
  p.allowed_methods.contains (pyUpper method)

/-- `Retry.is_retry` for a received status (no `Retry-After` header). -/
def isRetryStatus (p : RetryPolicy) (method : String) (code : Nat) : Bool :=
  methodRetryable p method && p.status_forcelist.contains code

/-- The urlopen retry loop.  `f n` is the transport outcome of attempt `n`
(counting from 0); `retriesLeft` is the remaining `total` budget;
`retriesDone` is the length of the retry history; `delays` accumulates the
sleeps (newest first). -/
def simulate (p : RetryPolicy) (method : String) (f : Nat → Outcome) :
    Nat → Nat → List Nat → Nat → SimOut
  | attempt, _, delays, 0 =>
    match f attempt with
    | .status code =>
      if isRetryStatus p method code then .maxRetryError (attempt + 1) delays.reverse
      else .response code (attempt + 1) delays.reverse
    | .connectError => .maxRetryError (attempt + 1) delays.reverse
    | .readTimeout =>
      if methodRetryable p method then .maxRetryError (attempt + 1) delays.reverse
      else .raisedReadError (attempt + 1) delays.reverse
  | attempt, retriesDone, delays, rl + 1 =>
    match f attempt with
    | .status code =>
      if isRetryStatus p method code then
        simulate p method f (attempt + 1) (retriesDone + 1)
          (backoffTime p (retriesDone + 1) :: delays) rl
      else .response code (attempt + 1) delays.reverse
    | .connectError =>
      simulate p method f (attempt + 1) (retriesDone + 1)
        (backoffTime p (retriesDone + 1) :: delays) rl
    | .readTimeout =>
      if methodRetryable p method then
        simulate p method f (attempt + 1) (retriesDone + 1)
          (backoffTime p (retriesDone + 1) :: delays) rl
      else .raisedReadError (attempt + 1) delays.reverse

/-- Run a request through the session's retry policy from a fresh state. -/
def runRequest (method : String) (f : Nat → Outcome) : SimOut :=
  simulate create_session_retry method f 0 0 [] create_session_retry.total

/-- Number of attempts a simulation made. -/
def SimOut.attempts : SimOut → Nat
  | .response _ n _ => n
  | .maxRetryError n _ => n
  | .raisedReadError n _ => n

end Retry

namespace Agent

/-! Embedding of `render_rich_component` from `ui_streamlit_agent/app.py`.
A component is a dict with an optional string `type` tag, a `data` dict of
JSON values (`component.get("data") or {}` yields `[]` when absent/falsy),
and a `children` list (`component.get("children") or []`).  Children are a
mutual inductive so that the renderer is structural.  Rendering produces the
sequence of Streamlit calls made; Python exceptions the dynamic code can
raise (`.lower()` on a non-string status, `pd.DataFrame` on a non-list
truthy `rows` value) are an explicit error outcome. -/

mutual

inductive RichComponent where
  | mk (typ : Option String) (data : List (String × PyJson)) (children : RichList)

inductive RichList where
  | nil
  | cons (c : RichComponent) (cs : RichList)

end

/-- Python truthiness of a JSON value. -/
def pyTruthy : PyJson → Bool
  | .null => false
  | .bool b => b
  | .num n => n != 0
  | .str s => !s.isEmpty
  | .arr l => !l.isEmpty
  | .obj l => !l.isEmpty

/-- `d.get(k) or default` on a JSON dict. -/
def jOr (v : Option PyJson) (dflt : PyJson) : PyJson :=
  match v with
  | none => dflt
  | some x => if pyTruthy x then x else dflt

/-- `a or b` where `a` is `d.get(k)` and `b` is another `d.get(k')`
(the second operand is returned even when falsy). -/
def jOrGet (a b : Option PyJson) : Option PyJson :=
  match a with
  | none => b
  | some x => if pyTruthy x then some x else b

mutual

/-- Python `repr()` of a JSON-like value (string items quoted, dicts and
lists rendered element-wise), used by `str()` on containers. -/
def pyRepr : PyJson → String
  | .str s => "'" ++ s ++ "'"
  | .num n => toString n
  | .bool true => "True"
  | .bool false => "False"
  | .null => "None"
  | .arr xs => "[" ++ pyReprArr xs ++ "]"
  | .obj fs => "\x7b" ++ pyReprObj fs ++ "\x7d"

/-- Comma-joined `repr` of list elements. -/
def pyReprArr : List PyJson → String
  | [] => ""
  | [x] => pyRepr x
  | x :: y :: rest => pyRepr x ++ ", " ++ pyReprArr (y :: rest)

/-- Comma-joined `repr` of dict items. -/
def pyReprObj : List (String × PyJson) → String
  | [] => ""
  | [(k, v)] => "'" ++ k ++ "': " ++ pyRepr v
  | (k, v) :: y :: rest => "'" ++ k ++ "': " ++ pyRepr v ++ ", " ++ pyReprObj (y :: rest)

end

/-- Python `str()` as used in the renderer's f-strings. -/
def pyStr : PyJson → String
  | .str s => s
  | j => pyRepr j

/-- One Streamlit call made while rendering (call name plus payload). -/
inductive REvent where
  | stMarkdown (content : PyJson)
  | stCaption (text : PyJson)
  | stError (body : PyJson)
  | stWarning (body : PyJson)
  | stSuccess (body : PyJson)
  | stInfo (body : PyJson)
  | stProgress (clamped : Int)
  | stDataframe (rows : List PyJson)
  | stInfoNoRows
  | stSubheader (title : PyJson)
  | stWrite (body : PyJson)
  | stJsonData (data : List (String × PyJson))
  | stJsonComp (component : RichComponent)

/-- Python exceptions the renderer can raise on ill-typed payloads. -/
inductive RenderErr where
  | attributeError
  | valueError

/-- `_render_status_message(level, message, detail)`.  A truthy non-string
level raises `AttributeError` at `.lower()`; a truthy detail is joined to the
message in the rendered body. -/
def render_status_message (level message : PyJson) (detail : Option PyJson) :
    Except RenderErr (List REvent) :=
  match jOr level (.str "info") with
  | .str levelStr =>
    let l := pyLower levelStr
    let body : PyJson :=
      match detail with
      | some d => if pyTruthy d then .str (pyStr message ++ "\n\n" ++ pyStr d) else message
      | none => message
    if l = "error" ∨ l = "danger" ∨ l = "fail" then .ok [.stError body]
    else if l = "warning" ∨ l = "warn" then .ok [.stWarning body]
    else if l = "success" ∨ l = "ok" ∨ l = "ready" then .ok [.stSuccess body]
    else .ok [.stInfo body]
  | _ => .error .attributeError

/-- The type tags `render_rich_component` dispatches on. -/
def recognizedTypes : List String :=
  ["rich_text", "text", "status_card", "status_bar_update", "status_update",
   "notification", "progress_display", "dataframe", "card", "container",
   "log_viewer", "task_list", "task_tracker_update"]

/-- The non-recursive part of `render_rich_component`: the dispatch on
`component_type` over the component's own payload, before the `children`
loop.  Returns the Streamlit calls made (or the Python exception raised). -/
def ownEvents (c : RichComponent) : Except RenderErr (List REvent) :=
  match c with
  | .mk typ data _ =>
    let component_type := pyLower (typ.getD "")
    if component_type = "rich_text" ∨ component_type = "text" then
      match jOrGet (jlookup "content" data) (jlookup "text" data) with
      | some content => if pyTruthy content then .ok [.stMarkdown content] else .ok []
      | none => .ok []
    else if component_type = "status_card" then
      let title := jOr (jlookup "title" data) (.str "Status")
      let description := jlookup "description" data
      let status := jOr (jlookup "status" data) (.str "info")
      render_status_message status (.str ("**" ++ pyStr title ++ "**")) description
    else if component_type = "status_bar_update" ∨ component_type = "status_update" then
      render_status_message (jOr (jlookup "status" data) (.str "info"))
        (jOr (jlookup "message" data) (.str "Status update"))
        (jlookup "detail" data)
    else if component_type = "notification" then
      render_status_message (jOr (jlookup "level" data) (.str "info"))
        (jOr (jlookup "message" data) (.str "Notification"))
        (jlookup "description" data)
    else if component_type = "progress_display" then
      let progressEvents : List REvent :=
        match jlookup "progress" data with
        | some (.num n) => [.stProgress (max 0 (min n 1))]
        | some (.bool b) => [.stProgress (if b then 1 else 0)]
        | _ => []
      let captionEvents : List REvent :=
        match jlookup "message" data with
        | some d => if pyTruthy d then [.stCaption d] else []
        | none => []
      .ok (progressEvents ++ captionEvents)
    else if component_type = "dataframe" then
      match jOr (jlookup "rows" data) (.arr []) with
      | .arr xs => if xs.isEmpty then .ok [.stInfoNoRows] else .ok [.stDataframe xs]
      | rows => if pyTruthy rows then .error .valueError else .ok [.stInfoNoRows]
    else if component_type = "card" ∨ component_type = "container" then
      let titleEvents : List REvent :=
        match jlookup "title" data with
        | some t => if pyTruthy t then [.stSubheader t] else []
        | none => []
      let bodyEvents : List REvent :=
        match jOrGet (jlookup "body" data) (jlookup "description" data) with
        | some b => if pyTruthy b then [.stWrite b] else []
        | none => []
      .ok (titleEvents ++ bodyEvents)
    else if component_type = "log_viewer" ∨ component_type = "task_list" ∨
        component_type = "task_tracker_update" then
      .ok [.stJsonData data]
    else
      .ok [.stJsonComp c]

mutual

/-- `render_rich_component(component)`: render the component's own payload,
then recursively render each child in order. -/
def render_rich_component : RichComponent → Except RenderErr (List REvent)
  | .mk typ data cs =>
    match ownEvents (.mk typ data cs) with
    | .error e => .error e
    | .ok own =>
      match renderChildren cs with
      | .error e => .error e
      | .ok rest => .ok (own ++ rest)

/-- The `for child in component.get("children") or []` loop. -/
def renderChildren : RichList → Except RenderErr (List REvent)
  | .nil => .ok []
  | .cons c cs =>
    match render_rich_component c with
    | .error e => .error e
    | .ok es =>
      match renderChildren cs with
      | .error e => .error e
      | .ok rest => .ok (es ++ rest)

end

mutual

/-- Node count of a component tree. -/
def sizeRC : RichComponent → Nat
  | .mk _ _ cs => 1 + sizeRL cs

/-- Node count of a component list. -/
def sizeRL : RichList → Nat
  | .nil => 0
  | .cons c cs => sizeRC c + sizeRL cs

end

mutual

/-- Depth-first preorder listing of the nodes of a component tree. -/
def preorder : RichComponent → List RichComponent
  | .mk typ data cs => .mk typ data cs :: preorderList cs

/-- Preorder listing of a component list. -/
def preorderList : RichList → List RichComponent
  | .nil => []
  | .cons c cs => preorder c ++ preorderList cs

end

mutual

/-- Every node's own render succeeds (its dynamic payload accesses do not
raise). -/
def renderSafe : RichComponent → Bool
  | .mk typ data cs =>
    (match ownEvents (.mk typ data cs) with
      | .ok _ => true
      | .error _ => false) && renderSafeList cs

/-- `renderSafe` for each component of a list. -/
def renderSafeList : RichList → Bool
  | .nil => true
  | .cons c cs => renderSafe c && renderSafeList cs

end

/-- The events of a node's own render when it succeeds (and `[]` on the
error branch, which `renderSafe` excludes). -/
def safeOwn (c : RichComponent) : List REvent :=
  match ownEvents c with
  | .ok es => es
  | .error _ => []

end Agent

/-! Claim-side (specification) definitions. -/

/-- The question normalization the specification asserts for cache keys:
equality "ignoring case and leading/trailing whitespace". -/
def specNormalize (s : String) : String :=
  pyLower (pyStrip s)

/-! Theorems settling the claims. -/

/-- C1: every SQL string containing one of DROP, DELETE, TRUNCATE, ALTER or
GRANT as a substring in any letter case is rejected by the safety gate inside
`execute_query`: the runner is never invoked for such an input, and when the
engine is connected the raised error is the DangerousOperation one. -/
theorem C1_safety_gate_rejects_dangerous_sql
    (sql_query : String)
    (h : ∃ keyword ∈ MVP.dangerous_keywords,
      pyInStr keyword (pyUpper sql_query) = true) :
    ∀ (engineConnected : Bool) (runDb : String → Except String MVP.DataFrame),
      (MVP.execute_query engineConnected runDb sql_query).2 = false ∧
      (engineConnected = true →
        (MVP.execute_query engineConnected runDb sql_query).1 =
          .error .dangerousOperation) := by
  intro ec runDb
  have hd : MVP.dangerousCheck sql_query = true := by
    simpa [MVP.dangerousCheck, List.any_eq_true] using h
  refine ⟨?_, ?_⟩
  · cases ec <;> simp [MVP.execute_query, hd]
  · rintro rfl
    simp [MVP.execute_query, hd]

/-- C1 witness: the gate fires on `DROP TABLE students` with a connected
engine, and the runner is not called. -/
theorem C1_safety_gate_rejects_dangerous_sql_witness :
    (MVP.execute_query true (fun _ => .ok ⟨[], []⟩) "DROP TABLE students").2 = false ∧
    (MVP.execute_query true (fun _ => .ok ⟨[], []⟩) "DROP TABLE students").1 =
      .error .dangerousOperation := by
  have h := C1_safety_gate_rejects_dangerous_sql "DROP TABLE students"
    ⟨"DROP", by decide, by decide⟩ true (fun _ => .ok ⟨[], []⟩)
  exact ⟨h.1, h.2 rfl⟩

/-- C2 counterexample: `"Q"` and `"q"` are equal after the claimed
case/whitespace normalization, yet `get_cached_result`/`cache_result` derive
different keys for them — the code hashes the raw question with no
normalization. -/
theorem C2_cache_key_not_normalized_counterexample :
    specNormalize "Q" = specNormalize "q" ∧
    MVP.cacheKey "Q" ≠ MVP.cacheKey "q" := by
  exact ⟨rfl, by decide⟩

/-- C2 (amended): the cache key is a pure function of the raw question
string — `query:` followed by the MD5 hex digest of its UTF-8 bytes — so two
questions get the same key exactly when their MD5 digests agree (identical
raw questions always hit, distinct ones collide only on an MD5 collision),
and a `cache_result` write is returned verbatim by a `get_cached_result`
read of the same raw question.  No case or whitespace normalization is
applied. -/
theorem C2_cache_key_pure_function_of_raw_question :
    (∀ q₁ q₂ : String,
      MVP.cacheKey q₁ = MVP.cacheKey q₂ ↔ MD5.md5Hex q₁ = MD5.md5Hex q₂) ∧
    (∀ (kv : List (String × MVP.CachedResult)) (q : String) (r : MVP.CachedResult),
      MVP.get_cached_result (MVP.cache_result (some kv) q r) q = some r) := by
  refine ⟨?_, ?_⟩
  · intro q₁ q₂
    constructor
    · intro h
      have hdata : ("query:" ++ MD5.md5Hex q₁).data = ("query:" ++ MD5.md5Hex q₂).data := by
        simpa [MVP.cacheKey] using congrArg String.data h
      have : (MD5.md5Hex q₁).data = (MD5.md5Hex q₂).data := by
        have h1 : ("query:".data ++ (MD5.md5Hex q₁).data) =
            ("query:".data ++ (MD5.md5Hex q₂).data) := hdata
        exact List.append_cancel_left h1
      cases hq1 : MD5.md5Hex q₁
      cases hq2 : MD5.md5Hex q₂
      simp_all
    · intro h
      simp [MVP.cacheKey, h]
  · intro kv q r
    simp [MVP.get_cached_result, MVP.cache_result, MVP.storeLookup]

/-- C3: whenever the cache lookup returns a stored result, `main` answers
with that result at once — no SQL generation and no execution — and after a
successful fresh answer, re-asking the same question is served from the
cache with no second generation or execution call, whatever the
collaborators then do. -/
theorem C3_cache_hit_short_circuits_pipeline :
    (∀ llm ec runDb store q r,
      MVP.get_cached_result store q = some r →
        MVP.mainTurn llm ec runDb store q = ⟨.answered r true, false, false, store⟩) ∧
    (∀ llm ec runDb kv q r llm' ec' runDb',
      (MVP.mainTurn llm ec runDb (some kv) q).outcome = .answered r false →
        MVP.mainTurn llm' ec' runDb' (MVP.mainTurn llm ec runDb (some kv) q).store q =
          ⟨.answered r true, false, false,
            (MVP.mainTurn llm ec runDb (some kv) q).store⟩) := by
  have hit : ∀ llm ec runDb store q r,
      MVP.get_cached_result store q = some r →
        MVP.mainTurn llm ec runDb store q = ⟨.answered r true, false, false, store⟩ := by
    intro llm ec runDb store q r h
    simp [MVP.mainTurn, h]
  refine ⟨hit, ?_⟩
  intro llm ec runDb kv q r llm' ec' runDb' h
  unfold MVP.mainTurn at h ⊢
  cases hget : MVP.get_cached_result (some kv) q with
  | some r' => simp [hget] at h
  | none =>
    simp only [hget] at h ⊢
    cases hgen : MVP.generate_sql llm q with
    | error e => simp [hgen] at h
    | ok sql =>
      simp only [hgen] at h ⊢
      cases hex : MVP.execute_query ec runDb sql with
      | mk res called =>
        cases res with
        | error e => simp [hex] at h
        | ok df =>
          simp only [hex] at h ⊢
          cases h
          have := hit llm' ec' runDb'
            (MVP.cache_result (some kv) q ⟨sql, df.records, df.records.length, df.columns⟩)
            q ⟨sql, df.records, df.records.length, df.columns⟩ (by
              simp [MVP.cache_result, MVP.get_cached_result, MVP.storeLookup])
          simpa [MVP.mainTurn] using this

/-- C3 witness: a fresh store, a first `count customers` turn that generates
and executes, then a second identical turn answered from the cache without
calling the collaborators. -/
theorem C3_cache_hit_short_circuits_pipeline_witness :
    (MVP.mainTurn (fun _ => .ok "SELECT 1") true
        (fun _ => .ok ⟨["c"], [[("c", .num 1)]]⟩)
        (some [(MVP.cacheKey "count customers",
          ⟨"SELECT COUNT(*) FROM customers;", [[("n", .num 42)]], 1, ["n"]⟩)])
        "count customers" =
      ⟨.answered ⟨"SELECT COUNT(*) FROM customers;", [[("n", .num 42)]], 1, ["n"]⟩ true,
        false, false,
        some [(MVP.cacheKey "count customers",
          ⟨"SELECT COUNT(*) FROM customers;", [[("n", .num 42)]], 1, ["n"]⟩)]⟩) ∧
    (MVP.mainTurn (fun _ => .error "llm down") false (fun _ => .error "db down")
        (MVP.mainTurn (fun _ => .ok "SELECT COUNT(*) FROM customers;") true
          (fun _ => .ok ⟨["n"], [[("n", .num 42)]]⟩) (some []) "count customers").store
        "count customers" =
      ⟨.answered ⟨"SELECT COUNT(*) FROM customers;", [[("n", .num 42)]], 1, ["n"]⟩ true,
        false, false,
        (MVP.mainTurn (fun _ => .ok "SELECT COUNT(*) FROM customers;") true
          (fun _ => .ok ⟨["n"], [[("n", .num 42)]]⟩) (some []) "count customers").store⟩) := by
  constructor
  · exact C3_cache_hit_short_circuits_pipeline.1 _ true _ _ "count customers" _ (by rfl)
  · exact C3_cache_hit_short_circuits_pipeline.2
      (fun _ => .ok "SELECT COUNT(*) FROM customers;") true
      (fun _ => .ok ⟨["n"], [[("n", .num 42)]]⟩) [] "count customers"
      ⟨"SELECT COUNT(*) FROM customers;", [[("n", .num 42)]], 1, ["n"]⟩
      (fun _ => .error "llm down") false (fun _ => .error "db down") (by rfl)

/-- Helper for C4: the retry loop makes at most `retriesLeft + 1` further
attempts from any state. -/
theorem simulate_attempts_le (p : Retry.RetryPolicy) (method : String)
    (f : Nat → Retry.Outcome) :
    ∀ (retriesLeft attempt retriesDone : Nat) (delays : List Nat),
      (Retry.simulate p method f attempt retriesDone delays retriesLeft).attempts ≤
        attempt + retriesLeft + 1 := by
  intro rl
  induction rl with
  | zero =>
    intro attempt retriesDone delays
    cases hf : f attempt <;>
      simp only [Retry.simulate, hf] <;>
      first
      | (split <;> simp [Retry.SimOut.attempts])
      | simp [Retry.SimOut.attempts]
  | succ n ih =>
    intro attempt retriesDone delays
    cases hf : f attempt <;> simp only [Retry.simulate, hf]
    case status code =>
      split
      · have h := ih (attempt + 1) (retriesDone + 1)
          (Retry.backoffTime p (retriesDone + 1) :: delays)
        omega
      · simp only [Retry.SimOut.attempts]; omega
    case connectError =>
      have h := ih (attempt + 1) (retriesDone + 1)
        (Retry.backoffTime p (retriesDone + 1) :: delays)
      omega
    case readTimeout =>
      split
      · have h := ih (attempt + 1) (retriesDone + 1)
          (Retry.backoffTime p (retriesDone + 1) :: delays)
        omega
      · simp only [Retry.SimOut.attempts]; omega

/-- C4 counterexample: under the session's policy (`Retry(total=3, ...)`), a
request whose every attempt receives a 503 is attempted 4 times — `total=3`
bounds the number of *retries*, not of attempts — and the sleep before the
first retry is 0 ms, not 500 ms. -/
theorem C4_retry_attempt_count_counterexample :
    Retry.runRequest "GET" (fun _ => .status 503) =
      .maxRetryError 4 [0, 1000, 2000] ∧
    ¬ (Retry.runRequest "GET" (fun _ => .status 503)).attempts ≤ 3 := by
  decide

/-- C4 (amended): the session's retry policy makes at most 3 retries, hence
at most 4 total attempts per request; for each of GET/POST/PUT/DELETE it
retries exactly on connection/timeout errors and on statuses
429/500/502/503/504 (any other status is returned after a single attempt);
the sleep before the first retry is 0 and before the n-th retry (n ≥ 2) it is
`min(120 s, 0.5 · 2^(n-1) s)`, geometric with the 0.5-second factor; and a
sequence of two 503 responses followed by a 200 yields overall success with
exactly 3 attempts (sleeping 0 then 1 second). -/
theorem C4_retry_policy_amended :
    (∀ method f, (Retry.runRequest method f).attempts ≤ 4) ∧
    (∀ method, method ∈ Retry.create_session_retry.allowed_methods →
      Retry.runRequest method (fun n => if n < 2 then .status 503 else .status 200) =
        .response 200 3 [0, 1000]) ∧
    (∀ method code, method ∈ Retry.create_session_retry.allowed_methods →
      code ∉ Retry.create_session_retry.status_forcelist →
      Retry.runRequest method (fun n => if n = 0 then .status code else .status 200) =
        .response code 1 []) ∧
    (∀ method code, method ∈ Retry.create_session_retry.allowed_methods →
      code ∈ Retry.create_session_retry.status_forcelist →
      Retry.runRequest method (fun n => if n = 0 then .status code else .status 200) =
        .response 200 2 [0]) ∧
    (∀ method, method ∈ Retry.create_session_retry.allowed_methods →
      Retry.runRequest method (fun n => if n = 0 then .connectError else .status 200) =
        .response 200 2 [0] ∧
      Retry.runRequest method (fun n => if n = 0 then .readTimeout else .status 200) =
        .response 200 2 [0]) ∧
    (∀ p n, 2 ≤ n →
      Retry.backoffTime p n = min Retry.BACKOFF_MAX_MS (p.backoff_factor_ms * 2 ^ (n - 1))) := by
  have hmem : ∀ method, method ∈ Retry.create_session_retry.allowed_methods →
      method = "GET" ∨ method = "POST" ∨ method = "PUT" ∨ method = "DELETE" := by
    intro method hm
    simpa [Retry.create_session_retry] using hm
  refine ⟨?_, ?_, ?_, ?_, ?_, ?_⟩
  · intro method f
    simpa using simulate_attempts_le Retry.create_session_retry method f 3 0 0 []
  · intro method hm
    rcases hmem method hm with rfl | rfl | rfl | rfl <;> decide
  · intro method code hm hcode
    have hct : Retry.create_session_retry.status_forcelist.contains code = false := by
      simpa using hcode
    have hretry : Retry.isRetryStatus Retry.create_session_retry method code = false := by
      unfold Retry.isRetryStatus
      rw [hct, Bool.and_false]
    simp [Retry.runRequest, Retry.simulate, hretry]
  · intro method code hm hcode
    have hct : Retry.create_session_retry.status_forcelist.contains code = true := by
      simpa using hcode
    have hmr : Retry.methodRetryable Retry.create_session_retry method = true := by
      rcases hmem method hm with rfl | rfl | rfl | rfl <;> decide
    have hretry : Retry.isRetryStatus Retry.create_session_retry method code = true := by
      unfold Retry.isRetryStatus
      rw [hmr, hct, Bool.and_self]
    have h200 : Retry.isRetryStatus Retry.create_session_retry method 200 = false := by
      unfold Retry.isRetryStatus
      rw [hmr]
      decide
    simp [Retry.runRequest, Retry.simulate, hretry, h200, Retry.backoffTime]
  · intro method hm
    rcases hmem method hm with rfl | rfl | rfl | rfl <;> exact ⟨by decide, by decide⟩
  · intro p n hn
    have h1 : ¬ n ≤ 1 := by omega
    simp [Retry.backoffTime, h1]

/-- C4 witness: the amended policy at concrete inputs — a POST with two 503s
then a 200 succeeds in exactly 3 attempts; a GET receiving 418 is not
retried; a GET receiving 503 is; a DELETE connection error is retried. -/
theorem C4_retry_policy_amended_witness :
    Retry.runRequest "POST" (fun n => if n < 2 then .status 503 else .status 200) =
      .response 200 3 [0, 1000] ∧
    Retry.runRequest "GET" (fun n => if n = 0 then .status 418 else .status 200) =
      .response 418 1 [] ∧
    Retry.runRequest "GET" (fun n => if n = 0 then .status 503 else .status 200) =
      .response 200 2 [0] ∧
    Retry.runRequest "DELETE" (fun n => if n = 0 then .connectError else .status 200) =
      .response 200 2 [0] := by
  refine ⟨C4_retry_policy_amended.2.1 "POST" (by decide),
    C4_retry_policy_amended.2.2.1 "GET" 418 (by decide) (by decide),
    C4_retry_policy_amended.2.2.2.1 "GET" 503 (by decide) (by decide),
    (C4_retry_policy_amended.2.2.2.2.1 "DELETE" (by decide)).1⟩

/-- C5 counterexample: a 500 response whose body is the JSON object `{}`
(valid JSON, no `detail` field) is surfaced as the raw body text alone —
`error_data.get("detail", str(response.text))` — not as the claimed
"raw status and body" form. -/
theorem C5_detail_fallback_counterexample :
    (Client.make_request ⟨none, none, 30⟩ "GET"
        (.response ⟨500, "\x7b\x7d", some (.obj []), ""⟩)).1 =
      .errorDict (.str "\x7b\x7d") ∧
    ("\x7b\x7d" : String) ≠ "HTTP 500: \x7b\x7d" := by
  exact ⟨rfl, by decide⟩

/-- C5 (amended): `_make_request` normalizes every transport exception and
every supported-method response into either the decoded 200/201 payload or an
`{error: message}` dict, with 401 clearing the stored token and expiry and
surfacing the unauthorized message, 403 access denied, 404 not found; for any
other status it surfaces the body's `detail` field when the body is a JSON
object containing one, the raw body text when the body is a JSON object
without one, and `HTTP <status>: <body>` only when the body is not valid
JSON; the single uncaught path is a non-2xx, non-401/403/404 response whose
body parses as non-object JSON, where the `.get` call raises an
AttributeError. -/
theorem C5_make_request_normalization_amended :
    (∀ (st : Client.ClientState) (m : String), pyUpper m ∈ Client.supportedMethods →
      (Client.make_request st m .timeout =
        (.errorDict (.str ("Request timeout after " ++ toString st.timeout ++ " seconds")), st)) ∧
      (∀ e, Client.make_request st m (.connectionError e) =
        (.errorDict (.str ("Connection error: " ++ e)), st)) ∧
      (∀ e, Client.make_request st m (.requestException e) =
        (.errorDict (.str ("Request failed: " ++ e)), st))) ∧
    (∀ (st : Client.ClientState) (m : String) (r : Client.HttpResponse),
      pyUpper m ∈ Client.supportedMethods →
      (r.status = 200 ∨ r.status = 201) →
      (∀ j, r.json = some j → Client.make_request st m (.response r) = (.payload j, st)) ∧
      (r.json = none → Client.make_request st m (.response r) =
        (.errorDict (.str ("Request failed: " ++ r.jsonErrMsg)), st))) ∧
    (∀ (st : Client.ClientState) (m : String) (r : Client.HttpResponse),
      pyUpper m ∈ Client.supportedMethods → r.status = 401 →
      Client.make_request st m (.response r) =
        (.errorDict (.str "Unauthorized. Please log in again."), Client.logout st)) ∧
    (∀ (st : Client.ClientState) (m : String) (r : Client.HttpResponse),
      pyUpper m ∈ Client.supportedMethods → r.status = 403 →
      Client.make_request st m (.response r) = (.errorDict (.str "Access denied."), st)) ∧
    (∀ (st : Client.ClientState) (m : String) (r : Client.HttpResponse),
      pyUpper m ∈ Client.supportedMethods → r.status = 404 →
      Client.make_request st m (.response r) = (.errorDict (.str "Endpoint not found."), st)) ∧
    (∀ (st : Client.ClientState) (m : String) (r : Client.HttpResponse),
      pyUpper m ∈ Client.supportedMethods →
      ¬ (r.status = 200 ∨ r.status = 201 ∨ r.status = 401 ∨ r.status = 403 ∨ r.status = 404) →
      (r.json = none → Client.make_request st m (.response r) =
        (.errorDict (.str ("HTTP " ++ toString r.status ++ ": " ++ r.text)), st)) ∧
      (∀ fields, r.json = some (.obj fields) →
        Client.make_request st m (.response r) =
          (.errorDict ((jlookup "detail" fields).getD (.str r.text)), st))) ∧
    (∀ (st : Client.ClientState) (m : String) (t : Client.Transport),
      (Client.make_request st m t).1 = .raisedAttributeError →
      ∃ r, t = .response r ∧
        ¬ (r.status = 200 ∨ r.status = 201 ∨ r.status = 401 ∨ r.status = 403 ∨ r.status = 404) ∧
        ∃ j, r.json = some j ∧ ∀ fields, j ≠ .obj fields) := by
  refine ⟨?_, ?_, ?_, ?_, ?_, ?_, ?_⟩
  · intro st m hm
    refine ⟨?_, ?_, ?_⟩ <;> simp [Client.make_request, hm]
  · intro st m r hm hs
    have h2 : r.status = 200 ∨ r.status = 201 := hs
    constructor
    · intro j hj
      simp [Client.make_request, hm, h2, hj]
    · intro hj
      simp [Client.make_request, hm, h2, hj]
  · intro st m r hm hs
    have h1 : ¬ (r.status = 200 ∨ r.status = 201) := by omega
    simp [Client.make_request, hm, h1, hs]
  · intro st m r hm hs
    have h1 : ¬ (r.status = 200 ∨ r.status = 201) := by omega
    have h2 : r.status ≠ 401 := by omega
    simp [Client.make_request, hm, h1, h2, hs]
  · intro st m r hm hs
    have h1 : ¬ (r.status = 200 ∨ r.status = 201) := by omega
    have h2 : r.status ≠ 401 := by omega
    have h3 : r.status ≠ 403 := by omega
    simp [Client.make_request, hm, h1, h2, h3, hs]
  · intro st m r hm hs
    have h1 : ¬ (r.status = 200 ∨ r.status = 201) := by omega
    have h2 : r.status ≠ 401 := by omega
    have h3 : r.status ≠ 403 := by omega
    have h4 : r.status ≠ 404 := by omega
    constructor
    · intro hj
      simp [Client.make_request, hm, h1, h2, h3, h4, hj]
    · intro fields hj
      simp [Client.make_request, hm, h1, h2, h3, h4, hj]
  · intro st m t h
    by_cases hm : pyUpper m ∈ Client.supportedMethods
    · cases t with
      | timeout => simp [Client.make_request, hm] at h
      | connectionError e => simp [Client.make_request, hm] at h
      | requestException e => simp [Client.make_request, hm] at h
      | response r =>
        refine ⟨r, rfl, ?_⟩
        by_cases h1 : r.status = 200 ∨ r.status = 201
        · cases hj : r.json <;> simp [Client.make_request, hm, h1, hj] at h
        · by_cases h2 : r.status = 401
          · simp [Client.make_request, hm, h1, h2] at h
          · by_cases h3 : r.status = 403
            · simp [Client.make_request, hm, h1, h2, h3] at h
            · by_cases h4 : r.status = 404
              · simp [Client.make_request, hm, h1, h2, h3, h4] at h
              · refine ⟨by omega, ?_⟩
                cases hj : r.json with
                | none => simp [Client.make_request, hm, h1, h2, h3, h4, hj] at h
                | some j =>
                  refine ⟨j, rfl, ?_⟩
                  cases j <;>
                    simp [Client.make_request, hm, h1, h2, h3, h4, hj] at h ⊢
    · simp [Client.make_request, hm] at h

/-- C5 witness: the amended mapping at concrete inputs — a timeout is
normalized, a 200 payload is decoded, a 401 clears the session, and a 500
with a JSON `detail` field surfaces that detail. -/
theorem C5_make_request_normalization_amended_witness :
    Client.make_request ⟨some "tok", some 9, 30⟩ "post" .timeout =
      (.errorDict (.str "Request timeout after 30 seconds"), ⟨some "tok", some 9, 30⟩) ∧
    Client.make_request ⟨some "tok", some 9, 30⟩ "GET"
        (.response ⟨200, "", some (.obj [("ok", .bool true)]), ""⟩) =
      (.payload (.obj [("ok", .bool true)]), ⟨some "tok", some 9, 30⟩) ∧
    Client.make_request ⟨some "tok", some 9, 30⟩ "GET"
        (.response ⟨401, "", none, ""⟩) =
      (.errorDict (.str "Unauthorized. Please log in again."), ⟨none, none, 30⟩) ∧
    Client.make_request ⟨some "tok", some 9, 30⟩ "POST"
        (.response ⟨500, "body", some (.obj [("detail", .str "boom")]), ""⟩) =
      (.errorDict (.str "boom"), ⟨some "tok", some 9, 30⟩) := by
  refine ⟨(C5_make_request_normalization_amended.1 ⟨some "tok", some 9, 30⟩ "post" (by decide)).1,
    ?_, ?_, ?_⟩
  · exact (C5_make_request_normalization_amended.2.1 ⟨some "tok", some 9, 30⟩ "GET"
      ⟨200, "", some (.obj [("ok", .bool true)]), ""⟩ (by decide) (Or.inl rfl)).1
      (.obj [("ok", .bool true)]) rfl
  · exact C5_make_request_normalization_amended.2.2.1 ⟨some "tok", some 9, 30⟩ "GET"
      ⟨401, "", none, ""⟩ (by decide) rfl
  · exact ((C5_make_request_normalization_amended.2.2.2.2.2.1 ⟨some "tok", some 9, 30⟩ "POST"
      ⟨500, "body", some (.obj [("detail", .str "boom")]), ""⟩ (by decide) (by decide)).2
      [("detail", .str "boom")] rfl).trans (by rfl)

/-- C6: Oracle configuration requires host, port, user and password (each
missing one fails with a `ValueError` naming it), and a service name or SID:
with both absent `build_oracle_dsn` fails with the explicit
"must specify either ORACLE_SERVICE_NAME or ORACLE_SID" error; a configured
service name always wins (DSN `host:port/service`, whatever the SID); with
only a SID the DSN is `host:port:sid`. -/
theorem C6_oracle_descriptor_requirements :
    (∀ env : Factory.Env,
      Factory.getenvTruthy env "ORACLE_HOST" = none →
        Factory.build_oracle_dsn env =
          .error "❌ ERROR: Missing required environment variable: ORACLE_HOST") ∧
    (∀ (env : Factory.Env) (host : String),
      Factory.getenvTruthy env "ORACLE_HOST" = some host →
      Factory.getenvTruthy env "ORACLE_PORT" = none →
        Factory.build_oracle_dsn env =
          .error "❌ ERROR: Missing required environment variable: ORACLE_PORT") ∧
    (∀ (env : Factory.Env) (host port : String),
      Factory.getenvTruthy env "ORACLE_HOST" = some host →
      Factory.getenvTruthy env "ORACLE_PORT" = some port →
      (Factory.getenvTruthy env "ORACLE_SERVICE_NAME" = none →
        Factory.getenvTruthy env "ORACLE_SID" = none →
        Factory.build_oracle_dsn env = .error Factory.oracleMissingMsg) ∧
      (∀ service, Factory.getenvTruthy env "ORACLE_SERVICE_NAME" = some service →
        Factory.build_oracle_dsn env = .ok (host ++ ":" ++ port ++ "/" ++ service)) ∧
      (∀ sid, Factory.getenvTruthy env "ORACLE_SERVICE_NAME" = none →
        Factory.getenvTruthy env "ORACLE_SID" = some sid →
        Factory.build_oracle_dsn env = .ok (host ++ ":" ++ port ++ ":" ++ sid))) ∧
    (∀ env : Factory.Env,
      pyLower ((Factory.getenv env "DB_TYPE").getD "sqlite") = "oracle" →
      (Factory.getenvTruthy env "ORACLE_USER" = none →
        Factory.get_db_runner env = .error (.valueError
          "❌ ERROR: Missing required environment variable: ORACLE_USER")) ∧
      (∀ user, Factory.getenvTruthy env "ORACLE_USER" = some user →
        Factory.getenvTruthy env "ORACLE_PASSWORD" = none →
        Factory.get_db_runner env = .error (.valueError
          "❌ ERROR: Missing required environment variable: ORACLE_PASSWORD")) ∧
      (∀ user password dsn,
        Factory.getenvTruthy env "ORACLE_USER" = some user →
        Factory.getenvTruthy env "ORACLE_PASSWORD" = some password →
        Factory.build_oracle_dsn env = .ok dsn →
        Factory.get_db_runner env = .ok (.oracle user password dsn))) := by
  refine ⟨?_, ?_, ?_, ?_⟩
  · intro env h
    simp only [Factory.build_oracle_dsn, Factory.validate_env, h]
    rfl
  · intro env host hh hp
    simp only [Factory.build_oracle_dsn, Factory.validate_env, hh, hp]
    rfl
  · intro env host port hh hp
    refine ⟨?_, ?_, ?_⟩
    · intro hsvc hsid
      simp only [Factory.build_oracle_dsn, Factory.validate_env, hh, hp, hsvc, hsid]
      rfl
    · intro service hsvc
      simp only [Factory.build_oracle_dsn, Factory.validate_env, hh, hp, hsvc]
      rfl
    · intro sid hsvc hsid
      simp only [Factory.build_oracle_dsn, Factory.validate_env, hh, hp, hsvc, hsid]
      rfl
  · intro env hdb
    refine ⟨?_, ?_, ?_⟩
    · intro hu
      simp [Factory.get_db_runner, hdb, Factory.validate_env, hu]
    · intro user hu hpw
      simp [Factory.get_db_runner, hdb, Factory.validate_env, hu, hpw]
    · intro user password dsn hu hpw hdsn
      simp [Factory.get_db_runner, hdb, Factory.validate_env, hu, hpw, hdsn]

/-- C6 witness: with host, port, user, password set — no service and no SID
fails with the explicit message; a SID alone builds `host:port:sid`; when
both are present the service name wins and the factory returns the Oracle
runner with DSN `host:port/service`. -/
theorem C6_oracle_descriptor_requirements_witness :
    Factory.build_oracle_dsn
        [("ORACLE_HOST", "h"), ("ORACLE_PORT", "1521"),
         ("ORACLE_USER", "u"), ("ORACLE_PASSWORD", "p")] =
      .error Factory.oracleMissingMsg ∧
    Factory.build_oracle_dsn
        [("ORACLE_HOST", "h"), ("ORACLE_PORT", "1521"), ("ORACLE_SID", "xe")] =
      .ok "h:1521:xe" ∧
    Factory.get_db_runner
        [("DB_TYPE", "Oracle"), ("ORACLE_HOST", "h"), ("ORACLE_PORT", "1521"),
         ("ORACLE_USER", "u"), ("ORACLE_PASSWORD", "p"),
         ("ORACLE_SERVICE_NAME", "svc"), ("ORACLE_SID", "xe")] =
      .ok (.oracle "u" "p" "h:1521/svc") := by
  refine ⟨?_, ?_, ?_⟩
  · exact (C6_oracle_descriptor_requirements.2.2.1 _ "h" "1521" (by decide) (by decide)).1
      (by decide) (by decide)
  · exact ((C6_oracle_descriptor_requirements.2.2.1 _ "h" "1521" (by decide) (by decide)).2.2
      "xe" (by decide) (by decide)).trans (by rfl)
  · exact C6_oracle_descriptor_requirements.2.2.2 _ (by decide) |>.2.2 "u" "p" "h:1521/svc"
      (by decide) (by decide)
      (((C6_oracle_descriptor_requirements.2.2.1 _ "h" "1521" (by decide) (by decide)).2.1
        "svc" (by decide)).trans (by rfl))

/-- C7: an engine kind outside {sqlite, oracle, postgres, postgresql, mssql}
makes `get_db_runner` raise `UnsupportedDatabaseError` naming the (lowercased)
value and listing exactly the valid set; every member of the set dispatches
to its runner variant — or fails with a configuration `ValueError`, never
with the unsupported-engine error. -/
theorem C7_unsupported_engine_and_dispatch :
    (∀ env : Factory.Env,
      pyLower ((Factory.getenv env "DB_TYPE").getD "sqlite") ∉ Factory.validKinds →
        Factory.get_db_runner env = .error (.unsupportedDatabase
          (Factory.unsupportedMsg (pyLower ((Factory.getenv env "DB_TYPE").getD "sqlite"))))) ∧
    (∀ env : Factory.Env,
      pyLower ((Factory.getenv env "DB_TYPE").getD "sqlite") ∈ Factory.validKinds →
        ∀ msg, Factory.get_db_runner env ≠ .error (.unsupportedDatabase msg)) ∧
    (∀ env : Factory.Env,
      pyLower ((Factory.getenv env "DB_TYPE").getD "sqlite") = "sqlite" →
        ∃ p, Factory.get_db_runner env = .ok (.sqlite p)) ∧
    (∀ env : Factory.Env,
      pyLower ((Factory.getenv env "DB_TYPE").getD "sqlite") = "oracle" →
        (∃ u pw d, Factory.get_db_runner env = .ok (.oracle u pw d)) ∨
        (∃ m, Factory.get_db_runner env = .error (.valueError m))) ∧
    (∀ env : Factory.Env,
      pyLower ((Factory.getenv env "DB_TYPE").getD "sqlite") = "postgres" ∨
      pyLower ((Factory.getenv env "DB_TYPE").getD "sqlite") = "postgresql" →
        (∃ u, Factory.get_db_runner env = .ok (.postgres u)) ∨
        (∃ m, Factory.get_db_runner env = .error (.valueError m))) ∧
    (∀ env : Factory.Env,
      pyLower ((Factory.getenv env "DB_TYPE").getD "sqlite") = "mssql" →
        (∃ u, Factory.get_db_runner env = .ok (.mssql u)) ∨
        (∃ m, Factory.get_db_runner env = .error (.valueError m))) := by
  refine ⟨?_, ?_, ?_, ?_, ?_, ?_⟩
  · intro env h
    simp [Factory.validKinds] at h
    obtain ⟨h1, h2, h3, h4, h5⟩ := h
    simp [Factory.get_db_runner, h1, h2, h3, h4, h5]
  · intro env h msg
    simp [Factory.validKinds] at h
    rcases h with h | h | h | h | h <;> simp [Factory.get_db_runner, h]
    · cases hu : Factory.validate_env env "ORACLE_USER" <;> simp [hu]
      cases hpw : Factory.validate_env env "ORACLE_PASSWORD" <;> simp [hpw]
      cases hd : Factory.build_oracle_dsn env <;> simp [hd]
    · cases hp : Factory.build_postgres_url env <;> simp [hp]
    · cases hp : Factory.build_postgres_url env <;> simp [hp]
    · cases hm : Factory.build_mssql_url env <;> simp [hm]
  · intro env h
    refine ⟨((truthyOpt (Factory.getenv env "SQLITE_DB_PATH")).orElse fun _ =>
      truthyOpt (Factory.getenv env "VANNA_DATABASE_PATH")).getD "vanna_db.db", ?_⟩
    simp [Factory.get_db_runner, h]
  · intro env h
    cases hu : Factory.validate_env env "ORACLE_USER" with
    | error e => exact Or.inr ⟨e, by simp [Factory.get_db_runner, h, hu]⟩
    | ok u =>
      cases hpw : Factory.validate_env env "ORACLE_PASSWORD" with
      | error e => exact Or.inr ⟨e, by simp [Factory.get_db_runner, h, hu, hpw]⟩
      | ok pw =>
        cases hd : Factory.build_oracle_dsn env with
        | error e => exact Or.inr ⟨e, by simp [Factory.get_db_runner, h, hu, hpw, hd]⟩
        | ok d => exact Or.inl ⟨u, pw, d, by simp [Factory.get_db_runner, h, hu, hpw, hd]⟩
  · intro env h
    cases hp : Factory.build_postgres_url env with
    | error e =>
      refine Or.inr ⟨e, ?_⟩
      rcases h with h | h <;> simp [Factory.get_db_runner, h, hp]
    | ok u =>
      refine Or.inl ⟨u, ?_⟩
      rcases h with h | h <;> simp [Factory.get_db_runner, h, hp]
  · intro env h
    cases hm : Factory.build_mssql_url env with
    | error e => exact Or.inr ⟨e, by simp [Factory.get_db_runner, h, hm]⟩
    | ok u => exact Or.inl ⟨u, by simp [Factory.get_db_runner, h, hm]⟩

/-- C7 witness: `DB_TYPE=db2` raises the unsupported-engine error with the
exact message; `DB_TYPE=sqlite` never raises it; an unset `DB_TYPE` defaults
to the sqlite runner. -/
theorem C7_unsupported_engine_and_dispatch_witness :
    Factory.get_db_runner [("DB_TYPE", "db2")] =
      .error (.unsupportedDatabase
        ("❌ Unsupported DB_TYPE: db2\n   Valid options: sqlite, oracle, postgres, postgresql, mssql")) ∧
    Factory.get_db_runner [("DB_TYPE", "sqlite")] ≠
      .error (.unsupportedDatabase "any message") ∧
    ∃ p, Factory.get_db_runner [] = .ok (.sqlite p) := by
  refine ⟨(C7_unsupported_engine_and_dispatch.1 [("DB_TYPE", "db2")] (by decide)).trans (by rfl),
    C7_unsupported_engine_and_dispatch.2.1 [("DB_TYPE", "sqlite")] (by decide) "any message",
    C7_unsupported_engine_and_dispatch.2.2.1 [] (by decide)⟩

/-- Helper for C8: on safe inputs the children loop renders exactly the
preorder concatenation of each node's own events. -/
theorem renderChildren_eq_preorder :
    ∀ (n : Nat) (cs : Agent.RichList), Agent.sizeRL cs ≤ n →
      Agent.renderSafeList cs = true →
      Agent.renderChildren cs =
        .ok (((Agent.preorderList cs).map Agent.safeOwn).flatten) := by
  intro n
  induction n using Nat.strong_induction_on with
  | _ n ih =>
    intro cs hsz hsafe
    cases cs with
    | nil => simp [Agent.renderChildren, Agent.preorderList]
    | cons c cs' =>
      cases c with
      | mk t d ch =>
        have hsize : Agent.sizeRL (.cons (.mk t d ch) cs') =
            1 + Agent.sizeRL ch + Agent.sizeRL cs' := by
          simp [Agent.sizeRL, Agent.sizeRC]
        simp only [Agent.renderSafeList, Agent.renderSafe, Bool.and_eq_true] at hsafe
        obtain ⟨⟨hown, hchsafe⟩, hcssafe⟩ := hsafe
        cases hov : Agent.ownEvents (.mk t d ch) with
        | error e => rw [hov] at hown; simp at hown
        | ok own =>
          have hch := ih (Agent.sizeRL ch) (by omega) ch le_rfl hchsafe
          have hcs := ih (Agent.sizeRL cs') (by omega) cs' le_rfl hcssafe
          simp [Agent.renderChildren, Agent.render_rich_component, hov, hch, hcs,
            Agent.preorderList, Agent.preorder, Agent.safeOwn]

/-- Helper for C8: the preorder listing has exactly one entry per node. -/
theorem preorderList_length_eq_size :
    ∀ (n : Nat) (cs : Agent.RichList), Agent.sizeRL cs ≤ n →
      (Agent.preorderList cs).length = Agent.sizeRL cs := by
  intro n
  induction n using Nat.strong_induction_on with
  | _ n ih =>
    intro cs hsz
    cases cs with
    | nil => simp [Agent.preorderList, Agent.sizeRL]
    | cons c cs' =>
      cases c with
      | mk t d ch =>
        have hsize : Agent.sizeRL (.cons (.mk t d ch) cs') =
            1 + Agent.sizeRL ch + Agent.sizeRL cs' := by
          simp [Agent.sizeRL, Agent.sizeRC]
        have h1 := ih (Agent.sizeRL ch) (by omega) ch le_rfl
        have h2 := ih (Agent.sizeRL cs') (by omega) cs' le_rfl
        simp [Agent.preorderList, Agent.preorder, Agent.sizeRL, Agent.sizeRC, h1, h2]
        omega

/-- C8: on every component tree whose dynamic payload accesses succeed,
`render_rich_component` produces exactly the concatenation, over the
depth-first preorder of the tree, of each node's own events — every node
rendered exactly once, own content before children — the preorder lists each
node exactly once (its length is the node count), and a component whose type
tag is not recognized renders as the raw payload fallback `st.json(component)`
without raising. -/
theorem C8_render_depth_first_once_with_fallback :
    (∀ c, Agent.renderSafe c = true →
      Agent.render_rich_component c =
        .ok (((Agent.preorder c).map Agent.safeOwn).flatten)) ∧
    (∀ c, (Agent.preorder c).length = Agent.sizeRC c) ∧
    (∀ (typ : Option String) (data : List (String × PyJson)) (cs : Agent.RichList),
      pyLower (typ.getD "") ∉ Agent.recognizedTypes →
      Agent.ownEvents (.mk typ data cs) = .ok [.stJsonComp (.mk typ data cs)]) := by
  refine ⟨?_, ?_, ?_⟩
  · intro c hsafe
    cases c with
    | mk t d ch =>
      simp only [Agent.renderSafe, Bool.and_eq_true] at hsafe
      obtain ⟨hown, hchsafe⟩ := hsafe
      cases hov : Agent.ownEvents (.mk t d ch) with
      | error e => rw [hov] at hown; simp at hown
      | ok own =>
        have hch := renderChildren_eq_preorder (Agent.sizeRL ch) ch le_rfl hchsafe
        simp [Agent.render_rich_component, hov, hch, Agent.preorder, Agent.safeOwn]
  · intro c
    cases c with
    | mk t d ch =>
      simp [Agent.preorder, Agent.sizeRC,
        preorderList_length_eq_size (Agent.sizeRL ch) ch le_rfl]
      omega
  · intro typ data cs h
    simp [Agent.recognizedTypes] at h
    obtain ⟨h1, h2, h3, h4, h5, h6, h7, h8, h9, h10, h11, h12, h13⟩ := h
    simp [Agent.ownEvents, h1, h2, h3, h4, h5, h6, h7, h8, h9, h10, h11, h12, h13]

/-- C8 witness: a two-level tree (a card with a text child and an
unknown-typed child) renders its own content first, then each child exactly
once in order, the unknown child falling back to the raw-payload event; its
preorder has exactly 3 entries. -/
theorem C8_render_depth_first_once_with_fallback_witness :
    Agent.render_rich_component
        (.mk (some "card") [("title", .str "T"), ("body", .str "B")]
          (.cons (.mk (some "text") [("content", .str "hi")] .nil)
            (.cons (.mk (some "mystery") [("x", .num 1)] .nil) .nil))) =
      .ok [.stSubheader (.str "T"), .stWrite (.str "B"), .stMarkdown (.str "hi"),
        .stJsonComp (.mk (some "mystery") [("x", .num 1)] .nil)] ∧
    (Agent.preorder
        (.mk (some "card") [("title", .str "T"), ("body", .str "B")]
          (.cons (.mk (some "text") [("content", .str "hi")] .nil)
            (.cons (.mk (some "mystery") [("x", .num 1)] .nil) .nil)))).length = 3 ∧
    Agent.ownEvents (.mk (some "mystery") [("x", .num 1)] .nil) =
      .ok [.stJsonComp (.mk (some "mystery") [("x", .num 1)] .nil)] := by
  refine ⟨?_, ?_, ?_⟩
  · exact (C8_render_depth_first_once_with_fallback.1 _ (by rfl)).trans (by rfl)
  · exact (C8_render_depth_first_once_with_fallback.2.1 _).trans (by rfl)
  · exact C8_render_depth_first_once_with_fallback.2.2 (some "mystery")
      [("x", .num 1)] .nil (by decide)

/-- Helper for C9: with an invalid local token, every authentication-gated
method refuses locally with the "Authentication required" error and makes no
network request. -/
theorem auth_gated_refuse_locally (now : Int) (st : Client.ClientState)
    (h : Client.is_token_valid now st = false) :
    ∀ t, Client.validate_sql now st t = (.errorDict (.str Client.authRequiredMsg), st, false) ∧
      Client.execute_sql now st t = (.errorDict (.str Client.authRequiredMsg), st, false) ∧
      Client.get_query_history now st t = (.errorDict (.str Client.authRequiredMsg), st, false) ∧
      Client.submit_feedback now st t = (.errorDict (.str Client.authRequiredMsg), st, false) ∧
      Client.get_config now st t = (.errorDict (.str Client.authRequiredMsg), st, false) := by
  intro t
  refine ⟨?_, ?_, ?_, ?_, ?_⟩ <;>
    simp [Client.validate_sql, Client.execute_sql, Client.get_query_history,
      Client.submit_feedback, Client.get_config, h]

/-- C9: a 200 login response with no `access_token` in its JSON body, or with
a token whose claims cannot be decoded, still makes `login` return `True`; on
a fresh client `token_expiry` stays/becomes `None`, so `is_token_valid` is
false at every instant and each authentication-gated method
(`validate_sql`, `execute_sql`, `get_query_history`, `submit_feedback`, the
admin `get_config`) returns the local "Authentication required" error without
any network round trip. -/
theorem C9_login_true_without_usable_token
    (st : Client.ClientState) (decode : String → Client.JwtOutcome)
    (fields : List (String × PyJson)) (txt jem : String)
    (hfresh : st.token_expiry = none) :
    (jlookup "access_token" fields = none →
      Client.login st decode (.response ⟨200, txt, some (.obj fields), jem⟩) =
        (.returns true, { st with access_token := none }) ∧
      ({ st with access_token := none } : Client.ClientState).token_expiry = none ∧
      (∀ now, Client.is_token_valid now { st with access_token := none } = false) ∧
      (∀ now t, Client.execute_sql now { st with access_token := none } t =
          (.errorDict (.str Client.authRequiredMsg), { st with access_token := none }, false) ∧
        Client.validate_sql now { st with access_token := none } t =
          (.errorDict (.str Client.authRequiredMsg), { st with access_token := none }, false) ∧
        Client.get_query_history now { st with access_token := none } t =
          (.errorDict (.str Client.authRequiredMsg), { st with access_token := none }, false) ∧
        Client.submit_feedback now { st with access_token := none } t =
          (.errorDict (.str Client.authRequiredMsg), { st with access_token := none }, false) ∧
        Client.get_config now { st with access_token := none } t =
          (.errorDict (.str Client.authRequiredMsg), { st with access_token := none }, false))) ∧
    (∀ tok, jlookup "access_token" fields = some (.str tok) → tok ≠ "" →
      decode tok = .invalid →
      Client.login st decode (.response ⟨200, txt, some (.obj fields), jem⟩) =
        (.returns true, { st with access_token := some tok, token_expiry := none }) ∧
      ({ st with access_token := some tok, token_expiry := none } :
        Client.ClientState).token_expiry = none ∧
      (∀ now, Client.is_token_valid now
        { st with access_token := some tok, token_expiry := none } = false) ∧
      (∀ now t, Client.execute_sql now
          { st with access_token := some tok, token_expiry := none } t =
          (.errorDict (.str Client.authRequiredMsg),
            { st with access_token := some tok, token_expiry := none }, false) ∧
        Client.validate_sql now
          { st with access_token := some tok, token_expiry := none } t =
          (.errorDict (.str Client.authRequiredMsg),
            { st with access_token := some tok, token_expiry := none }, false) ∧
        Client.get_query_history now
          { st with access_token := some tok, token_expiry := none } t =
          (.errorDict (.str Client.authRequiredMsg),
            { st with access_token := some tok, token_expiry := none }, false) ∧
        Client.submit_feedback now
          { st with access_token := some tok, token_expiry := none } t =
          (.errorDict (.str Client.authRequiredMsg),
            { st with access_token := some tok, token_expiry := none }, false) ∧
        Client.get_config now
          { st with access_token := some tok, token_expiry := none } t =
          (.errorDict (.str Client.authRequiredMsg),
            { st with access_token := some tok, token_expiry := none }, false))) := by
  constructor
  · intro hlookup
    have hvalid : ∀ now, Client.is_token_valid now { st with access_token := none } = false := by
      intro now
      simp [Client.is_token_valid]
    refine ⟨?_, hfresh, hvalid, ?_⟩
    · simp [Client.login, hlookup]
    · intro now t
      have h := auth_gated_refuse_locally now { st with access_token := none } (hvalid now) t
      exact ⟨h.2.1, h.1, h.2.2.1, h.2.2.2.1, h.2.2.2.2⟩
  · intro tok hlookup htok hdecode
    have hne : tok.isEmpty = false := by
      cases he : tok.isEmpty
      · rfl
      · exact absurd ((String.isEmpty_iff tok).mp he) htok
    have hvalid : ∀ now, Client.is_token_valid now
        { st with access_token := some tok, token_expiry := none } = false := by
      intro now
      simp [Client.is_token_valid, hne]
    refine ⟨?_, rfl, hvalid, ?_⟩
    · simp [Client.login, hlookup, hne, hdecode]
    · intro now t
      have h := auth_gated_refuse_locally now
        { st with access_token := some tok, token_expiry := none } (hvalid now) t
      exact ⟨h.2.1, h.1, h.2.2.1, h.2.2.2.1, h.2.2.2.2⟩

/-- C9 witness: a fresh client logging in against a 200 body without an
`access_token`, and against one whose token does not decode — both logins
return `True`, the token stays unusable, and `execute_sql`/`validate_sql`
refuse locally. -/
theorem C9_login_true_without_usable_token_witness :
    Client.login ⟨none, none, 30⟩ (fun _ => .invalid)
        (.response ⟨200, "", some (.obj []), ""⟩) =
      (.returns true, ⟨none, none, 30⟩) ∧
    Client.is_token_valid 0 ⟨none, none, 30⟩ = false ∧
    Client.execute_sql 0 ⟨none, none, 30⟩ .timeout =
      (.errorDict (.str Client.authRequiredMsg), ⟨none, none, 30⟩, false) ∧
    Client.login ⟨none, none, 30⟩ (fun _ => .invalid)
        (.response ⟨200, "", some (.obj [("access_token", .str "abc")]), ""⟩) =
      (.returns true, ⟨some "abc", none, 30⟩) ∧
    Client.is_token_valid 0 ⟨some "abc", none, 30⟩ = false ∧
    Client.validate_sql 0 ⟨some "abc", none, 30⟩ .timeout =
      (.errorDict (.str Client.authRequiredMsg), ⟨some "abc", none, 30⟩, false) := by
  have hA := (C9_login_true_without_usable_token ⟨none, none, 30⟩ (fun _ => .invalid)
    [] "" "" rfl).1 rfl
  have hB := (C9_login_true_without_usable_token ⟨none, none, 30⟩ (fun _ => .invalid)
    [("access_token", .str "abc")] "" "" rfl).2 "abc" rfl (by decide) rfl
  exact ⟨hA.1, hA.2.2.1 0, (hA.2.2.2 0 .timeout).1,
    hB.1, hB.2.2.1 0, (hB.2.2.2 0 .timeout).2.1⟩

/-- C10 counterexample: a stored empty-string token is non-`None`, yet
`_get_headers` attaches no `Authorization` header for it — the code tests
Python truthiness (`if self.access_token:`), not `is not None`. -/
theorem C10_empty_token_header_counterexample :
    (Client.ClientState.mk (some "") none 30).access_token ≠ none ∧
    List.lookup "Authorization" (Client.get_headers ⟨some "", none, 30⟩) = none := by
  decide

/-- C10 (amended): an outgoing request carries `Authorization: Bearer <token>`
exactly when `access_token` is truthy (non-`None` and non-empty) — in
particular an expired but non-empty token is still attached — `logout()`
unconditionally clears both fields and is idempotent, requests after a
`logout` carry no `Authorization` header, and `_make_request` itself never
installs a token (it either keeps the state or clears it via the 401
branch). -/
theorem C10_bearer_header_amended :
    (∀ st : Client.ClientState,
      List.lookup "Authorization" (Client.get_headers st) =
        match st.access_token with
        | some tok => if tok.isEmpty then none else some ("Bearer " ++ tok)
        | none => none) ∧
    (∀ (st : Client.ClientState) (tok : String) (now : Int),
      st.access_token = some tok → tok ≠ "" →
      Client.is_token_valid now st = false →
      List.lookup "Authorization" (Client.get_headers st) = some ("Bearer " ++ tok)) ∧
    (∀ st, (Client.logout st).access_token = none ∧ (Client.logout st).token_expiry = none) ∧
    (∀ st, Client.logout (Client.logout st) = Client.logout st) ∧
    (∀ st, List.lookup "Authorization" (Client.get_headers (Client.logout st)) = none) ∧
    (∀ (st : Client.ClientState) (m : String) (t : Client.Transport),
      (Client.make_request st m t).2 = st ∨
      (Client.make_request st m t).2 = Client.logout st) := by
  have hlk : ∀ st : Client.ClientState,
      List.lookup "Authorization" (Client.get_headers st) =
        match st.access_token with
        | some tok => if tok.isEmpty then none else some ("Bearer " ++ tok)
        | none => none := by
    intro st
    cases htok : st.access_token with
    | none => simp [Client.get_headers, htok, List.lookup]
    | some tok =>
      cases he : tok.isEmpty <;>
        simp [Client.get_headers, htok, he, List.lookup]
  refine ⟨hlk, ?_, ?_, ?_, ?_, ?_⟩
  · intro st tok now htok hne _
    have he : tok.isEmpty = false := by
      cases he : tok.isEmpty
      · rfl
      · exact absurd ((String.isEmpty_iff tok).mp he) hne
    rw [hlk st, htok]
    simp [he]
  · intro st
    exact ⟨rfl, rfl⟩
  · intro st
    rfl
  · intro st
    rw [hlk (Client.logout st)]
    rfl
  · intro st m t
    by_cases hm : pyUpper m ∈ Client.supportedMethods
    · cases t with
      | timeout => left; simp [Client.make_request, hm]
      | connectionError e => left; simp [Client.make_request, hm]
      | requestException e => left; simp [Client.make_request, hm]
      | response r =>
        by_cases h1 : r.status = 200 ∨ r.status = 201
        · cases hj : r.json <;> (left; simp [Client.make_request, hm, h1, hj])
        · by_cases h2 : r.status = 401
          · right; simp [Client.make_request, hm, h1, h2]
          · by_cases h3 : r.status = 403
            · left; simp [Client.make_request, hm, h1, h2, h3]
            · by_cases h4 : r.status = 404
              · left; simp [Client.make_request, hm, h1, h2, h3, h4]
              · cases hj : r.json with
                | none => left; simp [Client.make_request, hm, h1, h2, h3, h4, hj]
                | some j =>
                  cases j <;> (left; simp [Client.make_request, hm, h1, h2, h3, h4, hj])
    · left; simp [Client.make_request, hm]

/-- C10 witness: a client holding an expired but non-empty token still sends
`Authorization: Bearer expired`; after logging that client out the header is
gone and a second logout changes nothing. -/
theorem C10_bearer_header_amended_witness :
    List.lookup "Authorization" (Client.get_headers ⟨some "expired", some (-5), 30⟩) =
      some "Bearer expired" ∧
    Client.logout (Client.logout ⟨some "expired", some (-5), 30⟩) =
      Client.logout ⟨some "expired", some (-5), 30⟩ ∧
    List.lookup "Authorization"
      (Client.get_headers (Client.logout ⟨some "expired", some (-5), 30⟩)) = none := by
  exact ⟨C10_bearer_header_amended.2.1 ⟨some "expired", some (-5), 30⟩ "expired" 0 rfl
      (by decide) (by decide),
    C10_bearer_header_amended.2.2.2.1 ⟨some "expired", some (-5), 30⟩,
    C10_bearer_header_amended.2.2.2.2.1 ⟨some "expired", some (-5), 30⟩⟩
